import Mathlib

/-!
# Verification of the autodidact content pipeline core

Shallow embedding, over exact rationals, of the pipeline core of the
repository: the 5-factor quality scorer (`src/bot/quality_scorer.py`),
the proxy pool manager (`src/bot/proxy_manager.py`), the three queue
workers (`src/workers/transcription_worker.py`,
`src/workers/quality_assessment_worker.py`,
`src/workers/embedding_worker.py`), the intake agent
(`src/agents/intake_agent.py`) and the lifecycle store
(`autodidact/database/database_utils.py`).

Python floats are modelled as `ℚ`; `math.log10` is a transcendental
function, so it is threaded through as an explicit parameter
`log10 : ℕ → ℚ` (count arguments in the source are nonnegative
integers), and `datetime.now()` as an explicit time parameter
`now : ℚ` in seconds since the epoch.  Count fields (`subscriber_count`
and friends) are modelled as `ℕ`.
-/

namespace Autodidact

/-! ## Quality scorer — `src/bot/quality_scorer.py` -/

/-- `ContentMetrics` from `quality_scorer.py`: the raw metrics used for
quality scoring.  Timestamps are rationals in seconds. -/
structure ContentMetrics where
  title : String
  description : String
  transcript : String
  query : String
  tags : List String := []
  channel_name : String := ""
  subscriber_count : ℕ := 0
  is_verified : Bool := false
  view_count : ℕ := 0
  like_count : ℕ := 0
  comment_count : ℕ := 0
  published_at : Option ℚ := none
  duration_seconds : ℕ := 0
  has_captions : Bool := false
deriving DecidableEq

/-- `QualityScore` from `quality_scorer.py`: the detailed breakdown. -/
structure QualityScore where
  overall : ℚ
  relevance : ℚ
  authority : ℚ
  engagement : ℚ
  freshness : ℚ
  completeness : ℚ
deriving DecidableEq, Repr

/-- `QualityScore.WEIGHTS` from `quality_scorer.py`. -/
def WEIGHTS : List (String × ℚ) :=
  [("relevance", 0.30),
   ("authority", 0.25),
   ("engagement", 0.20),
   ("freshness", 0.15),
   ("completeness", 0.10)]

/-- Dictionary access `QualityScore.WEIGHTS[k]`. -/
def weight (k : String) : ℚ := ((WEIGHTS.lookup k).getD 0)

/-- A character matched by the regex `[a-z0-9]`. -/
def isWordChar (c : Char) : Bool :=
  ('a' ≤ c && c ≤ 'z') || ('0' ≤ c && c ≤ '9')

/-- Maximal runs of word characters, as in `re.findall(r'\b[a-z0-9]+\b', text)`
applied to a lowercased string (`cur` is the current run, reversed). -/
def splitTokens : List Char → List Char → List (List Char)
  | [], cur => if cur.isEmpty then [] else [cur.reverse]
  | c :: rest, cur =>
    if isWordChar c then splitTokens rest (c :: cur)
    else if cur.isEmpty then splitTokens rest []
    else cur.reverse :: splitTokens rest []

/-- `text.lower()` followed by `re.findall(r'\b[a-z0-9]+\b', text)`. -/
def extractWords (s : String) : List String :=
  (splitTokens (s.data.map Char.toLower) []).map fun l => String.mk l

/-- The `stop_words` set of `QualityScorer._extract_keywords`. -/
def stopWords : List String :=
  ["the", "a", "an", "and", "or", "but", "in", "on", "at", "to", "for",
   "of", "with", "by", "from", "as", "is", "was", "are", "been", "be",
   "have", "has", "had", "do", "does", "did", "will", "would", "should",
   "could", "may", "might", "must", "can", "this", "that", "these",
   "those", "i", "you", "he", "she", "it", "we", "they", "what", "which",
   "who", "when", "where", "why", "how", "all", "each", "every", "both",
   "few", "more", "most", "other", "some", "such", "no", "nor", "not",
   "only", "own", "same", "so", "than", "too", "very", "just"]

/-- `QualityScorer._extract_keywords`: lowercase, tokenize, drop words of
length ≤ 2 and stop words, collect into a set. -/
def extractKeywords (text : String) : Finset String :=
  if text = "" then ∅
  else ((extractWords text).filter
    (fun w => 2 < w.length && !stopWords.contains w)).toFinset

/-- `QualityScorer._keyword_overlap`: size of the intersection. -/
def keywordOverlap (s1 s2 : Finset String) : ℕ := (s1 ∩ s2).card

/-- `QualityScorer._score_relevance`. -/
def scoreRelevance (m : ContentMetrics) : ℚ :=
  let queryKeywords := extractKeywords m.query
  let titleKeywords := extractKeywords m.title
  let titleScore : ℚ :=
    min 1 ((keywordOverlap queryKeywords titleKeywords : ℚ) /
      (max 1 queryKeywords.card : ℕ))
  let descKeywords := extractKeywords m.description
  let descScore : ℚ :=
    min 1 ((keywordOverlap queryKeywords descKeywords : ℚ) /
      (max 1 queryKeywords.card : ℕ))
  let transcriptSample := if m.transcript ≠ "" then m.transcript.take 500 else ""
  let transcriptKeywords := extractKeywords transcriptSample
  let transcriptScore : ℚ :=
    min 1 ((keywordOverlap queryKeywords transcriptKeywords : ℚ) /
      (max 1 queryKeywords.card : ℕ))
  let tagKeywords := (m.tags.map extractKeywords).foldl (· ∪ ·) ∅
  let tagScore : ℚ :=
    if queryKeywords.card ≠ 0 then
      min 1 ((keywordOverlap queryKeywords tagKeywords : ℚ) /
        (max 1 queryKeywords.card : ℕ))
    else 0
  titleScore * 0.40 + descScore * 0.30 + transcriptScore * 0.20 + tagScore * 0.10

/-- `QualityScorer._score_authority` (`math.log10` passed explicitly). -/
def scoreAuthority (log10 : ℕ → ℚ) (m : ContentMetrics) : ℚ :=
  let subscriberScore : ℚ :=
    if 0 < m.subscriber_count then min 1 (log10 m.subscriber_count / 6.5) else 0
  let verificationScore : ℚ := if m.is_verified then 1.0 else 0.5
  let viewScore : ℚ :=
    if 0 < m.view_count then min 1 (log10 m.view_count / 6.5) else 0
  subscriberScore * 0.40 + verificationScore * 0.30 + viewScore * 0.30

/-- `QualityScorer._score_engagement`. -/
def scoreEngagement (log10 : ℕ → ℚ) (m : ContentMetrics) : ℚ :=
  let likeScore : ℚ :=
    if 0 < m.view_count then
      min 1 (((m.like_count : ℚ) / (m.view_count : ℚ)) / 0.05)
    else 0
  let commentScore : ℚ :=
    if 0 < m.comment_count then min 1 (log10 (m.comment_count + 1) / 3.5) else 0
  likeScore * 0.60 + commentScore * 0.40

/-- `QualityScorer._score_freshness` (`datetime.now()` passed explicitly
as `now`, in seconds; `age_days = age.total_seconds() / 86400`). -/
def scoreFreshness (now : ℚ) (m : ContentMetrics) : ℚ :=
  match m.published_at with
  | none => 0.5
  | some pub =>
    let ageDays := (now - pub) / 86400
    if ageDays < 30 then 1.0
    else if ageDays < 180 then 0.9
    else if ageDays < 365 then 0.7
    else if ageDays < 730 then 0.5
    else if ageDays < 1095 then 0.3
    else 0.2

/-- Maximal runs of non-whitespace characters (`cur` is the current
run, reversed), as Python `str.split()` produces them (empty pieces
dropped). -/
def whitespaceRuns : List Char → List Char → List (List Char)
  | [], cur => if cur.isEmpty then [] else [cur.reverse]
  | c :: rest, cur =>
    if c.isWhitespace then
      if cur.isEmpty then whitespaceRuns rest []
      else cur.reverse :: whitespaceRuns rest []
    else whitespaceRuns rest (c :: cur)

/-- Python `len(s.split())`: number of whitespace-separated words. -/
def wordCount (s : String) : ℕ := (whitespaceRuns s.data []).length

/-- `QualityScorer._score_completeness`. -/
def scoreCompleteness (m : ContentMetrics) : ℚ :=
  let transcriptWords := if m.transcript ≠ "" then wordCount m.transcript else 0
  let transcriptScore : ℚ :=
    if 500 ≤ transcriptWords then 1.0
    else if 200 ≤ transcriptWords then 0.7
    else if 100 ≤ transcriptWords then 0.5
    else 0.3
  let durationMin : ℚ :=
    if m.duration_seconds ≠ 0 then (m.duration_seconds : ℚ) / 60 else 0
  let durationScore : ℚ :=
    if 10 ≤ durationMin ∧ durationMin ≤ 30 then 1.0
    else if 5 ≤ durationMin ∧ durationMin < 10 then 0.8
    else if 30 < durationMin ∧ durationMin ≤ 60 then 0.9
    else if durationMin < 5 then 0.5
    else 0.7
  let captionScore : ℚ := if m.has_captions then 1.0 else 0.3
  let descWords := if m.description ≠ "" then wordCount m.description else 0
  let descScore : ℚ :=
    if 50 ≤ descWords then 1.0
    else if 20 ≤ descWords then 0.7
    else 0.4
  transcriptScore * 0.40 + durationScore * 0.30 + captionScore * 0.20 +
    descScore * 0.10

/-- `QualityScorer.score_content`.  The scorer's statistics fields
(`scores_calculated`, …) do not feed back into the returned score, so the
returned value is a function of the boosts, the metrics, `math.log10`
and `datetime.now()`, all passed explicitly. -/
def scoreContent (log10 : ℕ → ℚ) (relevanceBoost authorityBoost : ℚ)
    (now : ℚ) (m : ContentMetrics) : QualityScore :=
  let relevance0 := scoreRelevance m * relevanceBoost
  let authority0 := scoreAuthority log10 m * authorityBoost
  let engagement := scoreEngagement log10 m
  let freshness := scoreFreshness now m
  let completeness := scoreCompleteness m
  let relevance := min 1.0 (max 0.0 relevance0)
  let authority := min 1.0 (max 0.0 authority0)
  let overall :=
    relevance * weight "relevance" +
    authority * weight "authority" +
    engagement * weight "engagement" +
    freshness * weight "freshness" +
    completeness * weight "completeness"
  ⟨overall, relevance, authority, engagement, freshness, completeness⟩

/-- Round to 3 decimal places, as `round(x, 3)` in
`QualityScore.to_dict` (nearest-integer rounding over `ℚ` stands in for
Python's float rounding). -/
def round3 (q : ℚ) : ℚ := (round (q * 1000) : ℤ) / 1000

/-- `QualityScore.to_dict`. -/
def QualityScore.toDict (s : QualityScore) : List (String × ℚ) :=
  [("overall", round3 s.overall),
   ("relevance", round3 s.relevance),
   ("authority", round3 s.authority),
   ("engagement", round3 s.engagement),
   ("freshness", round3 s.freshness),
   ("completeness", round3 s.completeness)]

/-! ## Lifecycle store — `autodidact/database/database_utils.py` -/

/-- One row of the `videos` table (the columns touched by
`update_video_status`). -/
structure VideoRow where
  status : String
  quality_score : Option ℚ
  rejection_reason : Option String
deriving DecidableEq, Repr

/-- The `videos` table, keyed by `video_id`. -/
abbrev VideoDb := List (String × VideoRow)

/-- `update_video_status`: `UPDATE videos SET status = %s, quality_score
= %s, rejection_reason = %s WHERE video_id = %s` — all three columns are
written on every call; the Python defaults `score=None, reason=None`
are passed explicitly as `none` by callers that omit them. -/
def updateVideoStatus (videoId status : String) (score : Option ℚ)
    (reason : Option String) (db : VideoDb) : VideoDb :=
  db.map fun kv => if kv.1 = videoId then (kv.1, ⟨status, score, reason⟩) else kv

/-- A recorded `update_video_status` / `log_channel_and_video` effect,
for worker models that log their lifecycle-store writes. -/
structure DbWrite where
  video_id : String
  status : String
  score : Option ℚ
  reason : Option String
deriving DecidableEq, Repr

/-! ## Queue names — `src/workers/rabbitmq_utils.py` -/

def QUEUE_VIDEO_NEW : String := "tasks.video.new"
def QUEUE_VIDEO_TRANSCRIBED : String := "tasks.video.transcribed"
def QUEUE_VIDEO_VALIDATED : String := "tasks.video.validated"
def QUEUE_VIDEO_INGESTED : String := "tasks.video.ingested"

/-- What a worker callback does with the broker: publish to a queue and
ack, ack-and-discard, republish to the stage's own input queue with an
incremented `x-retry-count` header and ack, or `basic_nack(requeue=True)`. -/
inductive BrokerAction
  | ackPublish (queue : String)
  | ack
  | ackRequeue (queue : String) (retryCount : ℕ)
  | nackRequeue
deriving DecidableEq, Repr

/-! ## Transcription worker — `src/workers/transcription_worker.py` -/

/-- Outcome of `process_transcription` as the callback observes it: a
result to publish, a `ValueError` (raised when no transcript/metadata
could be scraped), or any other exception. -/
inductive TranscriptionOutcome
  | ok
  | valueError
  | otherException
deriving DecidableEq, Repr

/-- `max_retries = 3`, the literal in the transcription callback. -/
def transcriptionMaxRetries : ℕ := 3

/-- The `callback` of `transcription_worker.py` as a function of the
processing outcome and the `x-retry-count` header (0 when absent),
together with the lifecycle-store writes of the delivery
(`process_transcription` calls `log_channel_and_video`, which inserts
the video with status `'scraped'`, only on its success path; no other
branch writes anything). -/
def transcriptionCallback (videoId : String) (outcome : TranscriptionOutcome)
    (retryCount : ℕ) : BrokerAction × List DbWrite :=
  match outcome with
  | .ok => (.ackPublish QUEUE_VIDEO_TRANSCRIBED, [⟨videoId, "scraped", none, none⟩])
  | .valueError => (.ack, [])
  | .otherException =>
    if retryCount < transcriptionMaxRetries then
      (.ackRequeue QUEUE_VIDEO_NEW (retryCount + 1), [])
    else (.ack, [])

/-- Repeated delivery of one transcription message whose processing has
outcome `outcome` on every delivery: the broker redelivers exactly when
the callback republished to the stage's own input queue.  Returns the
`(x-retry-count, action)` pair of each delivery, first to last
(`fuel` bounds the recursion; any `fuel >` the retry budget is exact). -/
def transcriptionDeliveries (videoId : String) (outcome : TranscriptionOutcome) :
    ℕ → ℕ → List (ℕ × BrokerAction)
  | 0, _ => []
  | fuel + 1, r =>
    let (a, _) := transcriptionCallback videoId outcome r
    (r, a) :: (match a with
      | .ackRequeue _ r' => transcriptionDeliveries videoId outcome fuel r'
      | _ => [])

/-! ## Quality assessment worker — `src/workers/quality_assessment_worker.py` -/

/-- The metadata dictionary fields read by `process_validation`
(`upload_date` is carried already parsed: `datetime.fromisoformat`
failure becomes `none`, matching the `try/except` that leaves
`published_at = None`). -/
structure VideoMetadata where
  title : String := ""
  description : String := ""
  tags : List String := []
  channel_name : String := ""
  subscriber_count : ℕ := 0
  is_verified : Bool := false
  view_count : ℕ := 0
  like_count : ℕ := 0
  comment_count : ℕ := 0
  upload_date : Option ℚ := none
  duration_seconds : ℕ := 0
  domain_id : Option String := none
  subdomain_id : Option String := none
  skill_level : Option String := none
deriving DecidableEq, Repr

/-- A message on `tasks.video.transcribed` as the quality worker reads
it.  A `content` of `""` models a missing/empty transcript payload
(`bool(content)` is false); `metadata := none` models a message without
a metadata dictionary. -/
structure ValidationMessage where
  youtube_url : String := ""
  content : String := ""
  metadata : Option VideoMetadata := none
  video_id : String := ""
deriving DecidableEq, Repr

/-- Python `s.replace('_', ' ').lower()`. -/
def underscoreToSpaceLower (s : String) : String :=
  String.mk (s.data.map fun c => if c = '_' then ' ' else c.toLower)

/-- The query construction of `process_validation`: lowercased
domain/subdomain parts plus the skill level, joined by spaces, falling
back to the title when all are absent or empty (Python truthiness). -/
def buildQuery (md : VideoMetadata) : String :=
  let parts :=
    (match md.domain_id with
     | some d => if d = "" then [] else [underscoreToSpaceLower d]
     | none => []) ++
    (match md.subdomain_id with
     | some s => if s = "" then [] else [underscoreToSpaceLower s]
     | none => []) ++
    (match md.skill_level with
     | some s => if s = "" then [] else [s]
     | none => [])
  if parts ≠ [] then String.intercalate " " parts else md.title

/-- The `ContentMetrics` built by `process_validation`
(`has_captions=bool(content)`, `transcript=content or ''`). -/
def metricsOfMessage (msg : ValidationMessage) (md : VideoMetadata) : ContentMetrics :=
  { title := md.title
    description := md.description
    transcript := msg.content
    query := buildQuery md
    tags := md.tags
    channel_name := md.channel_name
    subscriber_count := md.subscriber_count
    is_verified := md.is_verified
    view_count := md.view_count
    like_count := md.like_count
    comment_count := md.comment_count
    published_at := md.upload_date
    duration_seconds := md.duration_seconds
    has_captions := msg.content ≠ "" }

/-- Python `f"{x:.2f}"` (nearest-integer rounding over `ℚ` stands in
for float rounding): two decimal places. -/
def format2 (q : ℚ) : String :=
  let n : ℤ := round (q * 100)
  let sign := if n < 0 then "-" else ""
  let a := n.natAbs
  let d := a % 100
  sign ++ toString (a / 100) ++ "." ++ (if d < 10 then "0" else "") ++ toString d

/-- The rejection reason string of `process_validation`:
`f"Quality score {quality_score:.2f} is below threshold (0.8)"`. -/
def rejectionReason (qualityScore : ℚ) : String :=
  "Quality score " ++ format2 qualityScore ++ " is below threshold (0.8)"

/-- A Python exception escaping `process_validation` into the
callback's bare `except Exception` handler. -/
inductive PyError
  | attributeError
deriving DecidableEq, Repr

/-- The message forwarded to `tasks.video.validated` on approval:
`final_metadata = {**metadata, 'quality_score': …, 'quality_breakdown':
score_result.to_dict()}`. -/
structure ForwardedMessage where
  youtube_url : String
  content : String
  metadata : VideoMetadata
  quality_score : ℚ
  quality_breakdown : List (String × ℚ)
  video_id : String
deriving DecidableEq, Repr

/-- Result of a completed `process_validation`: the lifecycle-store
writes performed plus the message forwarded (or `none`, the rejected
branch's `return None`). -/
structure ValidationOutput where
  writes : List DbWrite
  forwarded : Option ForwardedMessage
deriving DecidableEq, Repr

/-- `process_validation` of `quality_assessment_worker.py`.  A missing
metadata dictionary raises (`metadata.get(…)` on `None` is an
`AttributeError`) before any write.  The `if not score_result` branch of
the source is unreachable — `score_content` always returns a
`QualityScore` instance, which is truthy — and is not modelled.  The
worker constructs `QualityScorer()` with default boosts `1.0`. -/
def processValidation (log10 : ℕ → ℚ) (now : ℚ) (msg : ValidationMessage) :
    Except (PyError × List DbWrite) ValidationOutput :=
  match msg.metadata with
  | none => .error (.attributeError, [])
  | some md =>
    let metrics := metricsOfMessage msg md
    let scoreResult := scoreContent log10 1.0 1.0 now metrics
    let qualityScore := scoreResult.overall
    if qualityScore < 0.8 then
      .ok { writes := [⟨msg.video_id, "pending_review", some qualityScore,
                        some (rejectionReason qualityScore)⟩]
            forwarded := none }
    else
      .ok { writes := [⟨msg.video_id, "approved", some qualityScore,
                        some "Passed quality threshold"⟩]
            forwarded := some
              { youtube_url := msg.youtube_url
                content := msg.content
                metadata := md
                quality_score := qualityScore
                quality_breakdown := scoreResult.toDict
                video_id := msg.video_id } }

/-- The `callback` of `quality_assessment_worker.py`: publish to the
validated queue only when `process_validation` returned a result to
forward, then ack; on any exception, `basic_nack(requeue=True)` —
there is no retry counter and no status write in the handler. -/
def qualityCallback (log10 : ℕ → ℚ) (now : ℚ) (msg : ValidationMessage) :
    BrokerAction × List DbWrite :=
  match processValidation log10 now msg with
  | .ok out =>
    (match out.forwarded with
     | some _ => .ackPublish QUEUE_VIDEO_VALIDATED
     | none => .ack,
     out.writes)
  | .error (_, writes) => (.nackRequeue, writes)

/-! ## Embedding worker — `src/workers/embedding_worker.py` -/

/-- Outcome of `process_embedding` as its callback observes it. -/
inductive EmbeddingOutcome
  | ok
  | exception
deriving DecidableEq, Repr

/-- The `callback` of `embedding_worker.py`: on success publish to
`tasks.video.ingested` and ack; on any exception
`basic_nack(requeue=True)`.  It reads no retry header and has no
retry bound. -/
def embeddingCallback (outcome : EmbeddingOutcome) : BrokerAction :=
  match outcome with
  | .ok => .ackPublish QUEUE_VIDEO_INGESTED
  | .exception => .nackRequeue

/-! ## Intake agent — `src/agents/intake_agent.py` -/

/-- One entry of the Chroma collection (the fields the intake agent
writes: the chunk id, the document text, and the metadata relevant
here). -/
structure ChromaEntry where
  id : String
  document : String
  instrument_id : String
  text_length : ℕ
deriving DecidableEq, Repr

/-- Modelled from the spec: the vector-index write is an external
service; the spec's contract is `upsert(content_id, text,
structured_metadata)` which "must silently succeed (no duplicate) if
`content_id` already exists" — entries whose id is already present are
skipped, fresh ids are appended. -/
def collectionAdd (col : List ChromaEntry) (new : List ChromaEntry) : List ChromaEntry :=
  col ++ new.filter (fun e => col.all (fun e' => e'.id ≠ e.id))

/-- `IntakeAgent.process_and_add_document`: the whole content is a
single chunk; each chunk gets the id
`f"{unified_metadata.instrument_id}-{str(uuid.uuid4())[:8]}-{i}"`, with
the UUID generated fresh on every call and passed here as the `uuid`
parameter.  Returns the first chunk id and the updated collection. -/
def processAndAddDocument (uuid : String) (content : String)
    (instrumentId : String) (col : List ChromaEntry) : String × List ChromaEntry :=
  let chunks := [content]
  let entries := chunks.enum.map fun p =>
    ({ id := instrumentId ++ "-" ++ uuid.take 8 ++ "-" ++ toString p.1
       document := p.2
       instrument_id := instrumentId
       text_length := p.2.length } : ChromaEntry)
  let col' := collectionAdd col entries
  (match entries.head? with
   | some e => e.id
   | none => "No documents added", col')

/-! ## Proxy manager — `src/bot/proxy_manager.py` -/

/-- `ProxyStats` from `proxy_manager.py` (timestamps in seconds). -/
structure ProxyStats where
  proxy_url : String
  total_requests : ℕ := 0
  successful_requests : ℕ := 0
  failed_requests : ℕ := 0
  last_used : Option ℚ := none
  last_success : Option ℚ := none
  last_failure : Option ℚ := none
  avg_response_time : ℚ := 0
  consecutive_failures : ℕ := 0
  is_active : Bool := true
deriving DecidableEq, Repr

/-- `ProxyStats.success_rate`. -/
def ProxyStats.successRate (s : ProxyStats) : ℚ :=
  if s.total_requests = 0 then 0 else (s.successful_requests : ℚ) / s.total_requests

/-- `ProxyStats.score` at time `now`
(`hours_since_success = (now - last_success).total_seconds() / 3600`). -/
def ProxyStats.scoreAt (now : ℚ) (s : ProxyStats) : ℚ :=
  if s.is_active = false ∨ s.total_requests = 0 then 0
  else
    let successComponent := s.successRate * 0.5
    let timeComponent := max 0 (1 - s.avg_response_time / 10) * 0.3
    let recencyComponent :=
      match s.last_success with
      | some ls => max 0 (1 - ((now - ls) / 3600) / 24) * 0.2
      | none => 0
    successComponent + timeComponent + recencyComponent

/-- `ProxyRotationStrategy` from `proxy_manager.py`. -/
inductive ProxyRotationStrategy
  | round_robin
  | random
  | performance
deriving DecidableEq, Repr

/-- The `ProxyManager` configuration knobs (defaults as in
`ProxyManager.__init__`). -/
structure ProxyManagerCfg where
  strategy : ProxyRotationStrategy := .performance
  max_consecutive_failures : ℕ := 3
  cooldown_minutes : ℚ := 30
  enable_direct_fallback : Bool := true
deriving DecidableEq, Repr

/-- The mutable state of a `ProxyManager`: the per-proxy stats (a dict
in insertion order) and the round-robin index. -/
structure ProxyManagerState where
  stats : List ProxyStats
  currentIndex : ℕ := 0
deriving DecidableEq, Repr

/-- `ProxyManager._get_active_proxies`: walks the stats in order,
lazily reactivating (and resetting) inactive proxies whose cooldown
elapsed (`(now - last_failure).total_seconds() / 60 >=
cooldown_minutes`); returns the updated stats and the active urls. -/
def getActiveProxies (cooldownMinutes now : ℚ) :
    List ProxyStats → List ProxyStats × List String
  | [] => ([], [])
  | s :: rest =>
    let (rest', active) := getActiveProxies cooldownMinutes now rest
    if s.is_active then (s :: rest', s.proxy_url :: active)
    else
      match s.last_failure with
      | some lf =>
        if cooldownMinutes ≤ (now - lf) / 60 then
          let s' := { s with is_active := true, consecutive_failures := 0 }
          (s' :: rest', s'.proxy_url :: active)
        else (s :: rest', active)
      | none => (s :: rest', active)

/-- `ProxyManager._get_round_robin` (the chosen proxy and the bumped
index; the caller guarantees the list is nonempty). -/
def getRoundRobin (idx : ℕ) (proxies : List String) : Option String × ℕ :=
  (proxies.get? (idx % proxies.length), idx + 1)

/-- `ProxyManager._get_random`: `random.choice(proxies)`, the random
draw supplied as `seed`. -/
def getRandom (seed : ℕ) (proxies : List String) : Option String :=
  proxies.get? (seed % proxies.length)

/-- The cumulative walk of `_get_performance_based`'s weighted random
choice (`rand <= cumulative`). -/
def weightedPick (rand : ℚ) (cumulative : ℚ) : List (String × ℚ) → Option String
  | [] => none
  | (p, sc) :: rest =>
    if rand ≤ cumulative + sc then some p else weightedPick rand (cumulative + sc) rest

/-- `ProxyManager._get_performance_based`: score every candidate, sort
by score descending (Python `sort` is stable), then weighted random
selection with the `random.uniform(0, total)` draw supplied as `rand`;
with zero total score, uniform `random.choice` via `seed`. -/
def getPerformanceBased (now : ℚ) (stats : List ProxyStats) (seed : ℕ)
    (rand : ℚ) (proxies : List String) : Option String :=
  let scored := proxies.map fun p =>
    (p, ((stats.find? (fun s => s.proxy_url = p)).map (ProxyStats.scoreAt now)).getD 0)
  let sorted := scored.mergeSort fun a b => decide (b.2 ≤ a.2)
  let total := (sorted.map Prod.snd).sum
  if total = 0 then getRandom seed proxies
  else
    match weightedPick rand 0 sorted with
    | some p => some p
    | none => sorted.head?.map Prod.fst

/-- `ProxyManager.get_proxy`: compute the active urls (reactivating
cooled-down proxies), fall back to a direct connection (`none`) or
raise when none are active, select per strategy, and stamp the chosen
proxy's `last_used`. -/
def getProxy (cfg : ProxyManagerCfg) (now : ℚ) (seed : ℕ) (rand : ℚ)
    (st : ProxyManagerState) : Except String (Option String × ProxyManagerState) :=
  let (stats', active) := getActiveProxies cfg.cooldown_minutes now st.stats
  if active.isEmpty then
    if cfg.enable_direct_fallback then .ok (none, { st with stats := stats' })
    else .error "No active proxies available and direct fallback is disabled"
  else
    let (choice, idx') :=
      match cfg.strategy with
      | .round_robin => getRoundRobin st.currentIndex active
      | .random => (getRandom seed active, st.currentIndex)
      | .performance => (getPerformanceBased now stats' seed rand active, st.currentIndex)
    match choice with
    | some p =>
      let stats'' := stats'.map fun s =>
        if s.proxy_url = p then { s with last_used := some now } else s
      .ok (some p, { stats := stats'', currentIndex := idx' })
    | none =>
      -- unreachable: every strategy returns an element of the nonempty active list
      .ok (none, { st with stats := stats', currentIndex := idx' })

/-- Per-entry update of `ProxyManager.mark_success`: bump counters,
reset `consecutive_failures`, stamp `last_success`, and fold the
response time into the moving average (first sample taken verbatim). -/
def updateSuccess (now responseTime : ℚ) (s : ProxyStats) : ProxyStats :=
  { s with
    total_requests := s.total_requests + 1
    successful_requests := s.successful_requests + 1
    consecutive_failures := 0
    last_success := some now
    avg_response_time :=
      if s.avg_response_time = 0 then responseTime
      else s.avg_response_time * 0.7 + responseTime * 0.3 }

/-- Per-entry update of `ProxyManager.mark_failed`: bump counters and
`consecutive_failures`, stamp `last_failure`, and deactivate once
`consecutive_failures >= max_consecutive_failures`. -/
def updateFailed (maxConsecutiveFailures : ℕ) (now : ℚ) (s : ProxyStats) : ProxyStats :=
  let s' := { s with
    total_requests := s.total_requests + 1
    failed_requests := s.failed_requests + 1
    consecutive_failures := s.consecutive_failures + 1
    last_failure := some now }
  if maxConsecutiveFailures ≤ s'.consecutive_failures then
    { s' with is_active := false }
  else s'

/-- `ProxyManager.mark_success` over the stats dict (a `None` url or an
unknown url is a no-op). -/
def markSuccess (now responseTime : ℚ) (url : Option String)
    (stats : List ProxyStats) : List ProxyStats :=
  match url with
  | none => stats
  | some u => stats.map fun s =>
      if s.proxy_url = u then updateSuccess now responseTime s else s

/-- `ProxyManager.mark_failed` over the stats dict (a `None` url or an
unknown url is a no-op). -/
def markFailed (maxCF : ℕ) (now : ℚ) (url : Option String)
    (stats : List ProxyStats) : List ProxyStats :=
  match url with
  | none => stats
  | some u => stats.map fun s =>
      if s.proxy_url = u then updateFailed maxCF now s else s

/-! ## Theorems -/

/-- `update_video_status` rewrites the row of `vid` with exactly the
three given column values. -/
theorem lookup_updateVideoStatus (vid st : String) (sc : Option ℚ)
    (rs : Option String) (db : VideoDb) :
    (updateVideoStatus vid st sc rs db).lookup vid
      = (db.lookup vid).map fun _ => (⟨st, sc, rs⟩ : VideoRow) := by
  induction db with
  | nil => rfl
  | cons kv rest ih =>
    obtain ⟨k, v⟩ := kv
    have hmap : updateVideoStatus vid st sc rs ((k, v) :: rest) =
        (if k = vid then (k, (⟨st, sc, rs⟩ : VideoRow)) else (k, v))
          :: updateVideoStatus vid st sc rs rest := rfl
    by_cases h : k = vid
    · subst h
      rw [hmap, if_pos rfl, List.lookup_cons, List.lookup_cons]
      simp
    · have hbeq : (vid == k) = false := by simp [Ne.symm h]
      rw [hmap, if_neg h, List.lookup_cons, List.lookup_cons, hbeq]
      exact ih

/-- C10: every call to `update_video_status` writes all three columns
(status, quality_score, rejection_reason), so a call that omits score
or reason overwrites the stored values with NULL; in particular the
ingestion stage's final `status='ingested'` write (which passes neither
score nor reason) erases the quality score and reason persisted by the
quality gate. -/
theorem C10_status_update_overwrites (db : VideoDb) (vid st : String)
    (sc : Option ℚ) (rs : Option String) (q : ℚ) (r : String) :
    ((updateVideoStatus vid st sc rs db).lookup vid
        = (db.lookup vid).map fun _ => (⟨st, sc, rs⟩ : VideoRow)) ∧
    ((updateVideoStatus vid "ingested" none none
        (updateVideoStatus vid "approved" (some q) (some r) db)).lookup vid
      = (db.lookup vid).map fun _ => (⟨"ingested", none, none⟩ : VideoRow)) := by
  refine ⟨lookup_updateVideoStatus vid st sc rs db, ?_⟩
  rw [lookup_updateVideoStatus, lookup_updateVideoStatus, Option.map_map]
  rfl

/-- C9 counterexample: the claimed moving-average formula
`new_avg = 0.7 * old_avg + 0.3 * latency` fails on the very first
sample — with `avg_response_time = 0` and latency 1, `mark_success`
stores 1, not `0.7 * 0 + 0.3 * 1 = 0.3`. -/
theorem C9_counterexample :
    (updateSuccess 0 1 { proxy_url := "p" }).avg_response_time = 1 ∧
    (1 : ℚ) ≠ 0.7 * 0 + 0.3 * 1 := by
  refine ⟨rfl, by norm_num⟩

/-- C9 (amended): `mark_success` resets `consecutive_failures` to 0,
increments the total and successful counters, stamps `last_success`,
and updates the latency average by `0.7 * old + 0.3 * latency` — except
on the first sample (stored average 0), which is taken verbatim;
`mark_failed` increments `consecutive_failures` and the total/failed
counters, stamps `last_failure`, and sets `is_active` to false exactly
when the new `consecutive_failures` reaches
`max_consecutive_failures` (staying unchanged otherwise). -/
theorem C9_record_outcome (now rt : ℚ) (maxCF : ℕ) (s : ProxyStats) :
    ((updateSuccess now rt s).consecutive_failures = 0 ∧
     (updateSuccess now rt s).total_requests = s.total_requests + 1 ∧
     (updateSuccess now rt s).successful_requests = s.successful_requests + 1 ∧
     (updateSuccess now rt s).last_success = some now ∧
     (updateSuccess now rt s).avg_response_time =
       (if s.avg_response_time = 0 then rt
        else 0.7 * s.avg_response_time + 0.3 * rt)) ∧
    ((updateFailed maxCF now s).consecutive_failures = s.consecutive_failures + 1 ∧
     (updateFailed maxCF now s).total_requests = s.total_requests + 1 ∧
     (updateFailed maxCF now s).failed_requests = s.failed_requests + 1 ∧
     (updateFailed maxCF now s).last_failure = some now ∧
     (updateFailed maxCF now s).is_active =
       (if maxCF ≤ s.consecutive_failures + 1 then false else s.is_active)) := by
  constructor
  · refine ⟨rfl, rfl, rfl, rfl, ?_⟩
    unfold updateSuccess
    split_ifs <;> simp <;> ring
  · by_cases h : maxCF ≤ s.consecutive_failures + 1 <;>
      simp [updateFailed, h]

/-- Cancelling the surrounding pieces of a chunk id
`{iid}-{uuid8}-{index}`. -/
theorem chunkId_cancel {iid a b c : String}
    (h : iid ++ "-" ++ a ++ "-" ++ c = iid ++ "-" ++ b ++ "-" ++ c) : a = b := by
  have h' := congrArg String.data h
  simp only [String.data_append, List.append_assoc] at h'
  have h2 := List.append_cancel_left h'
  have h3 := List.append_cancel_left h2
  exact String.ext (List.append_left_injective _ h3)

/-- C1 counterexample: delivering the same ingestion payload twice does
not leave exactly one index entry — `process_and_add_document` mints a
fresh `{instrument_id}-{uuid4()[:8]}-{i}` id per call and `add`s under
it, so the second delivery (with its freshly drawn UUID) leaves two
entries holding the same document. -/
theorem C1_counterexample :
    ((processAndAddDocument "bbbbbbbb-2222" "the transcript" "MUSIC_PIANO"
        (processAndAddDocument "aaaaaaaa-1111" "the transcript" "MUSIC_PIANO" []).2).2).length = 2 ∧
    ((processAndAddDocument "bbbbbbbb-2222" "the transcript" "MUSIC_PIANO"
        (processAndAddDocument "aaaaaaaa-1111" "the transcript" "MUSIC_PIANO" []).2).2).map
      (fun e => e.document) = ["the transcript", "the transcript"] := by
  constructor <;> decide

/-- C1 (amended): re-delivery of an ingestion message re-runs
`process_and_add_document`, which generates a fresh chunk id from a new
UUID and adds under it; whenever the two drawn UUIDs differ in their
first 8 characters (the generic case), the second delivery appends a
second index entry with the same document — ingestion is not
idempotent and no content id is used as an idempotency key. -/
theorem C1_reingestion_duplicates (u1 u2 content iid : String)
    (h : u1.take 8 ≠ u2.take 8) :
    ((processAndAddDocument u2 content iid
        (processAndAddDocument u1 content iid []).2).2).length = 2 ∧
    ((processAndAddDocument u2 content iid
        (processAndAddDocument u1 content iid []).2).2).map
      (fun e => e.document) = [content, content] := by
  have hids : iid ++ "-" ++ u1.take 8 ++ "-" ++ toString (0 : ℕ)
      ≠ iid ++ "-" ++ u2.take 8 ++ "-" ++ toString (0 : ℕ) :=
    fun he => h (chunkId_cancel he)
  constructor <;>
    simp [processAndAddDocument, collectionAdd, List.enum, List.enumFrom, hids]

/-- C1 witness: the amended statement at a concrete input. -/
theorem C1_witness :
    "aaaaaaaa".take 8 ≠ "bbbbbbbb".take 8 ∧
    (((processAndAddDocument "bbbbbbbb" "txt" "MUSIC_PIANO"
        (processAndAddDocument "aaaaaaaa" "txt" "MUSIC_PIANO" []).2).2).length = 2 ∧
     ((processAndAddDocument "bbbbbbbb" "txt" "MUSIC_PIANO"
        (processAndAddDocument "aaaaaaaa" "txt" "MUSIC_PIANO" []).2).2).map
       (fun e => e.document) = ["txt", "txt"]) :=
  ⟨by decide, C1_reingestion_duplicates "aaaaaaaa" "bbbbbbbb" "txt" "MUSIC_PIANO" (by decide)⟩

/-- C3 counterexample: on a no-transcript delivery (the `ValueError`
branch) the transcription callback acks and discards with an empty
write list — the status `skipped_no_transcript` (or any status at all)
is never persisted, refuting the persistence half of the claim. -/
theorem C3_counterexample :
    transcriptionCallback "video-z" .valueError 0 = (.ack, []) := rfl

/-- C3 (amended): a no-transcript failure is acknowledged on the first
delivery — exactly one delivery happens for any retry header, so no
retries are consumed — but the content item's status is not persisted
at all (no `skipped_no_transcript` write exists in the code); only
other exceptions are treated as transient and republished with an
incremented retry counter while the budget lasts. -/
theorem C3_no_transcript_handling (vid : String) (r fuel : ℕ) :
    transcriptionCallback vid .valueError r = (.ack, []) ∧
    transcriptionDeliveries vid .valueError (fuel + 1) 0 = [(0, .ack)] ∧
    transcriptionCallback vid .otherException r =
      (if r < transcriptionMaxRetries
       then (.ackRequeue QUEUE_VIDEO_NEW (r + 1), [])
       else (.ack, [])) := by
  refine ⟨rfl, ?_, rfl⟩
  simp [transcriptionDeliveries, transcriptionCallback]

/-- C2 counterexample: a transcription message that fails transiently
on every delivery is delivered 4 times (retry counters 0,1,2,3) and is
then acknowledged and discarded: the final delivery performs no
lifecycle-store write, so no terminal error status is ever reached —
the item is silently dropped; and the embedding stage's callback nacks
with requeue on every failure, with no retry counter at all. -/
theorem C2_counterexample :
    transcriptionDeliveries "video-x" .otherException 10 0 =
      [(0, .ackRequeue QUEUE_VIDEO_NEW 1), (1, .ackRequeue QUEUE_VIDEO_NEW 2),
       (2, .ackRequeue QUEUE_VIDEO_NEW 3), (3, .ack)] ∧
    (transcriptionCallback "video-x" .otherException 3).2 = [] ∧
    embeddingCallback .exception = .nackRequeue := by
  refine ⟨by decide, rfl, rfl⟩

/-- C2 (amended): an always-transiently-failing transcription message
is delivered exactly `max_retries + 1 = 4` times with the
`x-retry-count` header rising 0,1,2,3 (never decreasing); after the
last attempt the message is acknowledged and discarded with no status
write whatsoever (there is no terminal error status on this path); the
embedding stage instead consults no retry counter and nacks with
`requeue=True` on every failure, redelivering without bound. -/
theorem C2_retry_bound (vid : String) (fuel r : ℕ) :
    transcriptionDeliveries vid .otherException (fuel + 4) 0 =
      [(0, .ackRequeue QUEUE_VIDEO_NEW 1), (1, .ackRequeue QUEUE_VIDEO_NEW 2),
       (2, .ackRequeue QUEUE_VIDEO_NEW 3), (3, .ack)] ∧
    (transcriptionCallback vid .otherException r).2 = [] ∧
    embeddingCallback .exception = .nackRequeue := by
  refine ⟨?_, ?_, rfl⟩
  · simp [transcriptionDeliveries, transcriptionCallback, transcriptionMaxRetries]
  · unfold transcriptionCallback
    split_ifs <;> rfl

/-- C4 counterexample: a quality-gate delivery whose processing raises
(here: a message without a metadata dictionary, which hits the same
bare `except Exception` handler as a scorer exception) is nacked with
`requeue=True` — it is redelivered — and no status is persisted, in
particular not `error_validation`. -/
theorem C4_counterexample :
    qualityCallback (fun _ => 0) 0 { video_id := "video-e", metadata := none }
      = (.nackRequeue, []) := rfl

/-- C4 (amended): any exception escaping `process_validation`
(scorer exceptions and malformed messages share the one bare
`except Exception` handler) causes `basic_nack(requeue=True)` — the
message is redelivered, not parked — with no lifecycle-store write; and
no reachable path of the quality callback ever persists
`error_validation` (that write sits behind the unreachable
`if not score_result` guard). -/
theorem C4_exception_requeue (log10 : ℕ → ℚ) (now : ℚ) (msg : ValidationMessage) :
    qualityCallback log10 now { msg with metadata := none } = (.nackRequeue, []) ∧
    ((qualityCallback log10 now msg).2).all
      (fun w => w.status != "error_validation") = true := by
  refine ⟨rfl, ?_⟩
  obtain ⟨url, content, meta, vd⟩ := msg
  rcases meta with _ | md
  · rfl
  · unfold qualityCallback processValidation
    dsimp only
    split_ifs <;> rfl

theorem weight_relevance : weight "relevance" = 0.30 := rfl

theorem weight_authority : weight "authority" = 0.25 := rfl

theorem weight_engagement : weight "engagement" = 0.20 := rfl

theorem weight_freshness : weight "freshness" = 0.15 := rfl

theorem weight_completeness : weight "completeness" = 0.10 := rfl

/-- The clamp `min(1.0, max(0.0, x))` of `score_content` lands in
`[0, 1]`. -/
theorem clamp01_bounds (x : ℚ) :
    0 ≤ min 1.0 (max 0.0 x) ∧ min 1.0 (max 0.0 x) ≤ 1 := by
  have h0 : (0.0 : ℚ) = 0 := by norm_num
  have h1 : (1.0 : ℚ) = 1 := by norm_num
  rw [h0, h1]
  exact ⟨le_min (by norm_num) (le_max_left _ _), min_le_left _ _⟩

/-- A guarded `min(1, x)` with nonnegative `x` lands in `[0, 1]`. -/
theorem ite_min_bounds (c : Prop) [Decidable c] (x : ℚ) (hx : 0 ≤ x) :
    0 ≤ (if c then min 1 x else 0) ∧ (if c then min 1 x else 0) ≤ 1 := by
  split_ifs with h
  · exact ⟨le_min (by norm_num) hx, min_le_left _ _⟩
  · norm_num

/-- `_score_engagement` lands in `[0, 1]` whenever `log10` is
nonnegative on arguments ≥ 1 (as the real `log10` is). -/
theorem scoreEngagement_bounds (log10 : ℕ → ℚ) (m : ContentMetrics)
    (hlog : ∀ n : ℕ, 1 ≤ n → 0 ≤ log10 n) :
    0 ≤ scoreEngagement log10 m ∧ scoreEngagement log10 m ≤ 1 := by
  have h1 := ite_min_bounds (0 < m.view_count)
    (((m.like_count : ℚ) / (m.view_count : ℚ)) / 0.05) (by positivity)
  have h2 := ite_min_bounds (0 < m.comment_count)
    (log10 (m.comment_count + 1) / 3.5)
    (div_nonneg (hlog (m.comment_count + 1) (by omega)) (by norm_num))
  simp only [scoreEngagement]
  constructor
  · linarith [h1.1, h1.2, h2.1, h2.2]
  · linarith [h1.1, h1.2, h2.1, h2.2]

/-- `_score_freshness` lands in `[0, 1]`. -/
theorem scoreFreshness_bounds (now : ℚ) (m : ContentMetrics) :
    0 ≤ scoreFreshness now m ∧ scoreFreshness now m ≤ 1 := by
  rcases hp : m.published_at with _ | pub <;> simp only [scoreFreshness, hp]
  · norm_num
  · split_ifs <;> norm_num

/-- `_score_completeness` lands in `[0, 1]`. -/
theorem scoreCompleteness_bounds (m : ContentMetrics) :
    0 ≤ scoreCompleteness m ∧ scoreCompleteness m ≤ 1 := by
  simp only [scoreCompleteness]
  set t1 := (if m.transcript ≠ "" then wordCount m.transcript else 0) with h1
  set q1 := (if m.duration_seconds ≠ 0 then (m.duration_seconds : ℚ) / 60 else 0) with h2
  set d1 := (if m.description ≠ "" then wordCount m.description else 0) with h3
  split_ifs <;> norm_num

/-- C7: the five factors returned by `score_content` each lie in
`[0, 1]` (relevance and authority via the explicit clamp, the others
intrinsically, given that `log10` is nonnegative on arguments ≥ 1), the
five weights sum to 1.0, and `overall` is exactly the weighted sum
0.30/0.25/0.20/0.15/0.10 of the returned factors — hence itself in
`[0, 1]` and never set independently. -/
theorem C7_score_invariants (log10 : ℕ → ℚ) (rb ab now : ℚ) (m : ContentMetrics)
    (hlog : ∀ n : ℕ, 1 ≤ n → 0 ≤ log10 n) :
    ((0 ≤ (scoreContent log10 rb ab now m).relevance ∧
        (scoreContent log10 rb ab now m).relevance ≤ 1) ∧
     (0 ≤ (scoreContent log10 rb ab now m).authority ∧
        (scoreContent log10 rb ab now m).authority ≤ 1) ∧
     (0 ≤ (scoreContent log10 rb ab now m).engagement ∧
        (scoreContent log10 rb ab now m).engagement ≤ 1) ∧
     (0 ≤ (scoreContent log10 rb ab now m).freshness ∧
        (scoreContent log10 rb ab now m).freshness ≤ 1) ∧
     (0 ≤ (scoreContent log10 rb ab now m).completeness ∧
        (scoreContent log10 rb ab now m).completeness ≤ 1)) ∧
    (WEIGHTS.map Prod.snd).sum = 1 ∧
    ((scoreContent log10 rb ab now m).overall =
      (scoreContent log10 rb ab now m).relevance * 0.30 +
      (scoreContent log10 rb ab now m).authority * 0.25 +
      (scoreContent log10 rb ab now m).engagement * 0.20 +
      (scoreContent log10 rb ab now m).freshness * 0.15 +
      (scoreContent log10 rb ab now m).completeness * 0.10) ∧
    (0 ≤ (scoreContent log10 rb ab now m).overall ∧
      (scoreContent log10 rb ab now m).overall ≤ 1) := by
  have hrel := clamp01_bounds (scoreRelevance m * rb)
  have haut := clamp01_bounds (scoreAuthority log10 m * ab)
  have heng := scoreEngagement_bounds log10 m hlog
  have hfre := scoreFreshness_bounds now m
  have hcom := scoreCompleteness_bounds m
  simp only [scoreContent]
  refine ⟨⟨hrel, haut, heng, hfre, hcom⟩, by norm_num [WEIGHTS], ?_, ?_⟩
  · rw [weight_relevance, weight_authority, weight_engagement,
      weight_freshness, weight_completeness]
  · rw [weight_relevance, weight_authority, weight_engagement,
      weight_freshness, weight_completeness]
    constructor
    · linarith [hrel.1, haut.1, heng.1, hfre.1, hcom.1]
    · linarith [hrel.2, haut.2, heng.2, hfre.2, hcom.2]

/-- The concrete metrics value of the C7 witness. -/
def pianoMetrics : ContentMetrics :=
  { title := "piano", description := "", transcript := "", query := "piano" }

/-- C7 witness: the invariants at a concrete metrics value, with the
zero table for `log10` (nonnegative everywhere). -/
theorem C7_witness :
    ((0 ≤ (scoreContent (fun _ => (0 : ℚ)) 1 1 0 pianoMetrics).relevance ∧
        (scoreContent (fun _ => (0 : ℚ)) 1 1 0 pianoMetrics).relevance ≤ 1) ∧
     (0 ≤ (scoreContent (fun _ => (0 : ℚ)) 1 1 0 pianoMetrics).authority ∧
        (scoreContent (fun _ => (0 : ℚ)) 1 1 0 pianoMetrics).authority ≤ 1) ∧
     (0 ≤ (scoreContent (fun _ => (0 : ℚ)) 1 1 0 pianoMetrics).engagement ∧
        (scoreContent (fun _ => (0 : ℚ)) 1 1 0 pianoMetrics).engagement ≤ 1) ∧
     (0 ≤ (scoreContent (fun _ => (0 : ℚ)) 1 1 0 pianoMetrics).freshness ∧
        (scoreContent (fun _ => (0 : ℚ)) 1 1 0 pianoMetrics).freshness ≤ 1) ∧
     (0 ≤ (scoreContent (fun _ => (0 : ℚ)) 1 1 0 pianoMetrics).completeness ∧
        (scoreContent (fun _ => (0 : ℚ)) 1 1 0 pianoMetrics).completeness ≤ 1)) ∧
    (WEIGHTS.map Prod.snd).sum = 1 ∧
    ((scoreContent (fun _ => (0 : ℚ)) 1 1 0 pianoMetrics).overall =
      (scoreContent (fun _ => (0 : ℚ)) 1 1 0 pianoMetrics).relevance * 0.30 +
      (scoreContent (fun _ => (0 : ℚ)) 1 1 0 pianoMetrics).authority * 0.25 +
      (scoreContent (fun _ => (0 : ℚ)) 1 1 0 pianoMetrics).engagement * 0.20 +
      (scoreContent (fun _ => (0 : ℚ)) 1 1 0 pianoMetrics).freshness * 0.15 +
      (scoreContent (fun _ => (0 : ℚ)) 1 1 0 pianoMetrics).completeness * 0.10) ∧
    (0 ≤ (scoreContent (fun _ => (0 : ℚ)) 1 1 0 pianoMetrics).overall ∧
      (scoreContent (fun _ => (0 : ℚ)) 1 1 0 pianoMetrics).overall ≤ 1) :=
  C7_score_invariants (fun _ => 0) 1 1 0 pianoMetrics (fun _ _ => le_refl 0)

/-- The metrics of the C6 counterexample: published at the epoch,
everything else empty. -/
def timeCexMetrics : ContentMetrics :=
  { title := "", description := "", transcript := "", query := "",
    published_at := some 0 }

/-- C6 counterexample: scoring is not invariant under the invocation
time — `_score_freshness` reads `datetime.now()`, so the same metrics
scored 10 days and 40 days after publication get freshness 1.0
vs 0.9, and the two `score_content` results differ. -/
theorem C6_counterexample :
    (scoreContent (fun _ => 0) 1 1 (10 * 86400) timeCexMetrics).freshness = 1 ∧
    (scoreContent (fun _ => 0) 1 1 (40 * 86400) timeCexMetrics).freshness = 0.9 ∧
    scoreContent (fun _ => 0) 1 1 (10 * 86400) timeCexMetrics
      ≠ scoreContent (fun _ => 0) 1 1 (40 * 86400) timeCexMetrics := by
  have h1 : (scoreContent (fun _ => 0) 1 1 (10 * 86400) timeCexMetrics).freshness = 1 := by
    norm_num [scoreContent, scoreFreshness, timeCexMetrics]
  have h2 : (scoreContent (fun _ => 0) 1 1 (40 * 86400) timeCexMetrics).freshness = 0.9 := by
    norm_num [scoreContent, scoreFreshness, timeCexMetrics]
  refine ⟨h1, h2, fun he => ?_⟩
  rw [he, h2] at h1
  norm_num at h1

/-- C6 (amended): `score_content` is a pure function of the metrics,
the boosts, `math.log10` and the invocation time; two invocations on
identical metrics agree on relevance, authority, engagement and
completeness, and their `overall` values differ by exactly 0.15 times
the freshness difference — the clock read in `_score_freshness` is the
only time dependence. -/
theorem C6_determinism_modulo_time (log10 : ℕ → ℚ) (rb ab t1 t2 : ℚ)
    (m : ContentMetrics) :
    (scoreContent log10 rb ab t1 m).relevance
        = (scoreContent log10 rb ab t2 m).relevance ∧
    (scoreContent log10 rb ab t1 m).authority
        = (scoreContent log10 rb ab t2 m).authority ∧
    (scoreContent log10 rb ab t1 m).engagement
        = (scoreContent log10 rb ab t2 m).engagement ∧
    (scoreContent log10 rb ab t1 m).completeness
        = (scoreContent log10 rb ab t2 m).completeness ∧
    (scoreContent log10 rb ab t1 m).overall - (scoreContent log10 rb ab t2 m).overall
      = 0.15 * ((scoreContent log10 rb ab t1 m).freshness
          - (scoreContent log10 rb ab t2 m).freshness) := by
  refine ⟨rfl, rfl, rfl, rfl, ?_⟩
  simp only [scoreContent]
  rw [weight_freshness]
  ring

/-- The score the quality gate computes for a message carrying metadata
`md`: `QualityScorer()` is constructed with default boosts `1.0`. -/
def gateScore (log10 : ℕ → ℚ) (now : ℚ) (msg : ValidationMessage)
    (md : VideoMetadata) : QualityScore :=
  scoreContent log10 1.0 1.0 now (metricsOfMessage { msg with metadata := some md } md)

/-- C5 (amended): the quality gate branches exactly at 0.8 on the
computed overall score.  Below 0.8 it persists `pending_review` with
the score and a rejection reason built from the score and the literal
threshold `(0.8)`, forwards nothing, and the callback publishes
nothing (plain ack); at or above 0.8 it persists `approved` with the
quality score and the constant reason `"Passed quality threshold"` —
the 5-factor breakdown is **not** persisted — and forwards the item,
carrying the quality score and the scorer's breakdown (the five
factors plus `overall`) in the message metadata only, to the validated
queue, which the callback publishes to. -/
theorem C5_quality_gate (log10 : ℕ → ℚ) (now : ℚ) (msg : ValidationMessage)
    (md : VideoMetadata) :
    (processValidation log10 now { msg with metadata := some md } =
      (if (gateScore log10 now msg md).overall < 0.8 then
        Except.ok ⟨[⟨msg.video_id, "pending_review",
                     some (gateScore log10 now msg md).overall,
                     some (rejectionReason (gateScore log10 now msg md).overall)⟩],
                   none⟩
      else
        Except.ok ⟨[⟨msg.video_id, "approved",
                     some (gateScore log10 now msg md).overall,
                     some ("Passed quality threshold")⟩],
                   some ⟨msg.youtube_url, msg.content, md,
                         (gateScore log10 now msg md).overall,
                         (gateScore log10 now msg md).toDict,
                         msg.video_id⟩⟩)) ∧
    (qualityCallback log10 now { msg with metadata := some md } =
      (if (gateScore log10 now msg md).overall < 0.8 then
        (BrokerAction.ack, [⟨msg.video_id, "pending_review",
                             some (gateScore log10 now msg md).overall,
                             some (rejectionReason (gateScore log10 now msg md).overall)⟩])
      else
        (BrokerAction.ackPublish QUEUE_VIDEO_VALIDATED,
         [⟨msg.video_id, "approved",
           some (gateScore log10 now msg md).overall,
           some ("Passed quality threshold")⟩]))) ∧
    ((gateScore log10 now msg md).toDict.map Prod.fst =
      ["overall", "relevance", "authority", "engagement", "freshness", "completeness"]) ∧
    rejectionReason (gateScore log10 now msg md).overall =
      "Quality score " ++ format2 (gateScore log10 now msg md).overall
        ++ " is below threshold (0.8)" := by
  refine ⟨?_, ?_, rfl, rfl⟩
  · unfold processValidation gateScore
    dsimp only
  · unfold qualityCallback processValidation gateScore
    dsimp only
    split_ifs <;> rfl

/-- The metadata of the C5 counterexample message: a verified
million-subscriber channel, a 5% like ratio, a 20-minute video
published at the epoch, with matching domain/title/description/tag
keywords. -/
def approveMd : VideoMetadata :=
  { title := "piano", description := "piano", tags := ["piano"],
    subscriber_count := 1000000, is_verified := true, view_count := 100,
    like_count := 5, comment_count := 1000, upload_date := some 0,
    duration_seconds := 1200, domain_id := some ("piano") }

/-- The C5 counterexample message. -/
def approveMsg : ValidationMessage :=
  { youtube_url := "https://youtu.be/h", content := "piano",
    metadata := some approveMd, video_id := "video-h" }

/-- The `ContentMetrics` that `process_validation` builds for
`approveMsg`, spelled out. -/
def approveMetrics : ContentMetrics :=
  { title := "piano", description := "piano", transcript := "piano",
    query := "piano", tags := ["piano"], channel_name := "",
    subscriber_count := 1000000, is_verified := true, view_count := 100,
    like_count := 5, comment_count := 1000, published_at := some 0,
    duration_seconds := 1200, has_captions := true }

set_option maxRecDepth 2000 in
theorem approve_metrics_eq :
    metricsOfMessage approveMsg approveMd = approveMetrics := by
  decide

set_option maxRecDepth 2000 in
/-- The counterexample message scores `overall = 0.966` (with a `log10`
table answering 100 everywhere, legitimate for the million-subscriber
channel the message describes): all factors 1 except completeness
(0.66), so the quality gate approves it. -/
theorem approve_score :
    scoreContent (fun _ => 100) 1.0 1.0 0 (metricsOfMessage approveMsg approveMd) =
      ⟨483/500, 1, 1, 1, 1, 33/50⟩ := by
  rw [approve_metrics_eq]
  have hk : extractKeywords "piano" = {"piano"} := by decide
  have htk : (("piano" : String)).take 500 = "piano" := by
    rw [String.take_eq]; decide
  have hne : ¬ (("piano" : String) = "") := by decide
  have hw : wordCount "piano" = 1 := by decide
  have h1 : scoreRelevance approveMetrics = 1 := by
    norm_num [scoreRelevance, approveMetrics, hk, htk, hne, keywordOverlap,
      List.foldl, min_def]
  have h2 : scoreAuthority (fun _ => 100) approveMetrics = 1 := by
    norm_num [scoreAuthority, approveMetrics, min_def]
  have h3 : scoreEngagement (fun _ => 100) approveMetrics = 1 := by
    norm_num [scoreEngagement, approveMetrics, min_def]
  have h4 : scoreFreshness 0 approveMetrics = 1 := by
    norm_num [scoreFreshness, approveMetrics]
  have h5 : scoreCompleteness approveMetrics = 33/50 := by
    norm_num [scoreCompleteness, approveMetrics, hw, hne]
  simp only [scoreContent, h1, h2, h3, h4, h5, weight_relevance, weight_authority,
    weight_engagement, weight_freshness, weight_completeness]
  norm_num [min_def, max_def]

/-- C5 counterexample: on a concrete message that the gate approves
(overall `0.966 ≥ 0.8`), the complete persisted effect of the delivery
is the single write `(status='approved', quality_score=0.966,
rejection_reason='Passed quality threshold')` — the lifecycle store's
three columns receive no factor values, so the 5-factor breakdown is
not persisted (it travels only in the forwarded queue message),
refuting the persistence half of the claim's pass branch. -/
theorem C5_counterexample :
    (processValidation (fun _ => 100) 0 approveMsg).map (fun o => o.writes) =
      Except.ok [⟨"video-h", "approved", some (483/500),
                  some ("Passed quality threshold")⟩] ∧
    (updateVideoStatus "video-h" "approved" (some (483/500))
        (some ("Passed quality threshold"))
        [("video-h", (⟨"scraped", none, none⟩ : VideoRow))]).lookup "video-h"
      = some ⟨"approved", some (483/500), some ("Passed quality threshold")⟩ := by
  constructor
  · have hmd : approveMsg.metadata = some approveMd := rfl
    simp only [processValidation, hmd]
    rw [approve_score]
    norm_num [Except.map, approveMsg]
  · simp [updateVideoStatus, List.lookup]

/-- An endpoint deactivated by failures, `cooldown_minutes` away from
reactivation: `is_active = false` with `last_failure = some lf`
(arbitrary remaining statistics).  Used to state C8. -/
def cooledStats (u : String) (tr sr fr : ℕ) (lu ls : Option ℚ) (avg lf : ℚ)
    (cf : ℕ) : ProxyStats :=
  { proxy_url := u, total_requests := tr, successful_requests := sr,
    failed_requests := fr, last_used := lu, last_success := ls,
    last_failure := some lf, avg_response_time := avg,
    consecutive_failures := cf, is_active := false }

/-- A healthy endpoint: `is_active = true`, no consecutive failures. -/
def healthyStats (u : String) (tr sr fr : ℕ) (lu ls lfo : Option ℚ)
    (avg : ℚ) : ProxyStats :=
  { proxy_url := u, total_requests := tr, successful_requests := sr,
    failed_requests := fr, last_used := lu, last_success := ls,
    last_failure := lfo, avg_response_time := avg,
    consecutive_failures := 0, is_active := true }

/-- C8: three consecutive `mark_failed` calls (the default
`max_consecutive_failures = 3`) deactivate a healthy endpoint;
`_get_active_proxies` keeps an inactive endpoint out of the active set
while `(now - last_failure)/60 < cooldown_minutes` and, once the
cooldown has elapsed, lazily reactivates it, resetting its
consecutive-failure count; accordingly `get_proxy` — under every
rotation strategy and any random draw — never returns the endpoint
during the cooldown (it falls back to a direct connection, or raises
when direct fallback is disabled) and returns it again once the
cooldown has elapsed. -/
theorem C8_proxy_cooldown (u : String) (tr sr fr : ℕ) (lu ls : Option ℚ)
    (lfo : Option ℚ) (avg lf cd now rand t1 t2 t3 : ℚ) (cf seed : ℕ)
    (strat : ProxyRotationStrategy) (fb : Bool) :
    ((markFailed 3 t3 (some u) (markFailed 3 t2 (some u) (markFailed 3 t1 (some u)
        [healthyStats u tr sr fr lu ls lfo avg]))).map
      (fun s => s.is_active) = [false]) ∧
    (getActiveProxies cd now [cooledStats u tr sr fr lu ls avg lf cf] =
      (if cd ≤ (now - lf) / 60 then
        ([{ cooledStats u tr sr fr lu ls avg lf cf with
            is_active := true, consecutive_failures := 0 }], [u])
      else ([cooledStats u tr sr fr lu ls avg lf cf], []))) ∧
    ((getProxy ⟨strat, 3, cd, fb⟩ now seed rand
        ⟨[cooledStats u tr sr fr lu ls avg lf cf], 0⟩).map Prod.fst =
      (if cd ≤ (now - lf) / 60 then Except.ok (some u)
       else if fb then Except.ok none
       else Except.error
         "No active proxies available and direct fallback is disabled")) := by
  refine ⟨?_, ?_, ?_⟩
  · norm_num [markFailed, updateFailed, healthyStats]
  · by_cases h : cd ≤ (now - lf) / 60 <;>
      simp [getActiveProxies, cooledStats, h]
  · by_cases h : cd ≤ (now - lf) / 60
    · rw [if_pos h]
      unfold getProxy
      have hact : getActiveProxies cd now [cooledStats u tr sr fr lu ls avg lf cf] =
          ([{ cooledStats u tr sr fr lu ls avg lf cf with
              is_active := true, consecutive_failures := 0 }], [u]) := by
        simp [getActiveProxies, cooledStats, h]
      rw [hact]
      cases strat
      · simp [getRoundRobin, Except.map]
      · simp [getRandom, Nat.mod_one, Except.map]
      · simp only [getPerformanceBased, List.map_cons, List.map_nil,
          List.mergeSort, List.find?, getRandom, Nat.mod_one, weightedPick]
        split_ifs <;> simp_all [Except.map, getRandom, Nat.mod_one]
    · rw [if_neg h]
      unfold getProxy
      have hact : getActiveProxies cd now [cooledStats u tr sr fr lu ls avg lf cf] =
          ([cooledStats u tr sr fr lu ls avg lf cf], []) := by
        simp [getActiveProxies, cooledStats, h]
      rw [hact]
      cases fb <;> simp [Except.map]

end Autodidact
